import Mathlib

/-!
# beer-garden UI: authorization check, system catalog events, auth reducer

A shallow embedding of three pieces of the browser client:

* `$rootScope.hasPermission` (`src/ui/src/js/run.js`, lines 131-140);
* the `'global_systems'` event callback (`src/ui/src/js/run.js`, lines 195-219);
* the Redux auth reducer exercised by `ui/src/reducers/__tests__/auth.test.js`.

JavaScript values are embedded by their shape: an array of strings is a
`List String`, a property that may be missing is an `Option`, and a function
that can return either a boolean or a number returns a `JSValue`.
-/

namespace BeerGarden

/-! ## Authorization check (`run.js`, lines 131-140) -/

/-- The JavaScript values `$rootScope.hasPermission` can return: the literals
`true` and `false`, or the `length` of an array. -/
inductive JSValue where
  | bool (b : Bool)
  | number (n : Nat)
deriving DecidableEq, Repr

/-- JavaScript truthiness: `false` and `0` are falsy, `true` and every other
number are truthy. -/
def JSValue.truthy : JSValue → Bool
  | .bool b => b
  | .number n => n != 0

/-- The part of `$rootScope.config` read by the check. `$rootScope.config` starts
as the empty object (line 67), so `authEnabled` may be undefined (`none`). -/
structure Config where
  authEnabled : Option Bool
deriving DecidableEq, Repr

/-- The part of a user object read by the check. `permissions` is the array
stored by `loadUser` (line 86). A user object without that property is
represented by the empty list: lodash treats both alike (`_.includes` finds
nothing in it and `_.intersection` yields `[]`). -/
structure User where
  username : String
  permissions : List String
deriving DecidableEq, Repr

/-- The second argument of `hasPermission`: a single string or an array of
strings. -/
inductive PermissionsArg where
  | single (permission : String)
  | array (permissions : List String)
deriving DecidableEq, Repr

/-- Lodash `_.includes(collection, value)` on an array of strings. -/
def includes (collection : List String) (value : String) : Bool :=
  collection.contains value

/-- Lodash `_.castArray(value)`: an array is returned as it is, any other value
is wrapped in a one-element array. -/
def castArray : PermissionsArg → List String
  | .single permission => [permission]
  | .array permissions => permissions

/-- Lodash `_.intersection(array, other)`: the values of `array` that are also in
`other`, each kept once, in the order of `array`. The loop walks `array` and
pushes a value onto `result` when it is not yet in `result` and is in `other`. -/
def intersection (array other : List String) : List String :=
  array.foldl
    (fun result value =>
      if !result.contains value && other.contains value then result ++ [value] else result)
    []

/-- The function `$rootScope.hasPermission(user, permissions)`; `user = none` is
the JavaScript `undefined`.

```
if (!$rootScope.config.authEnabled) return true;
if (_.isUndefined(user)) return false;
if (_.includes(user.permissions, 'bg-all')) return true;
return _.intersection(user.permissions, _.castArray(permissions)).length;
```
-/
def hasPermission (config : Config) (user : Option User) (permissions : PermissionsArg) :
    JSValue :=
  if config.authEnabled != some true then .bool true
  else
    match user with
    | none => .bool false
    | some u =>
      if includes u.permissions "bg-all" then .bool true
      else .number (intersection u.permissions (castArray permissions)).length

/-! ## System catalog events (`run.js`, lines 195-219) -/

/-- A system record of the catalog `$rootScope.systems`, and the payload of a
system event: a JavaScript object with the properties `id`, `name`, `version`,
`description`, `instances` and `commands` (`routes.js`, line 47).

A JavaScript object has an identity besides its properties, and lodash compares
the elements of an array by identity (`SameValueZero`). The field `ref` stands
for that identity: two objects with equal properties and different `ref` are
two objects, and two entries of an array are the same object exactly when they
are equal as values of this type. -/
structure SystemRecord where
  ref : Nat
  id : String
  name : String
  version : String
  description : String
  instances : List String
  commands : List String
deriving DecidableEq, Repr

/-- An event delivered to the callbacks of `EventService`. -/
structure Event where
  name : String
  payload : SystemRecord
deriving DecidableEq, Repr

/-- Modelled from the spec: `SystemService.findSystemByID` is defined in
`services/system_service.js`, which is not among the sources. The spec speaks
of the "existing record with that id": the lookup yields the first record of
the catalog whose `id` is the requested one, or `undefined` (`none`). -/
def findSystemByID (systems : List SystemRecord) (id : String) : Option SystemRecord :=
  systems.find? (fun system => system.id == id)

/-- Lodash `_.pull(array, value)`: removes every element of `array` that is the
object `value`. The comparison is by identity, which is equality of values
that carry their `ref`: an entry with the same properties as `value` and
another `ref` is another object and stays. -/
def pull (array : List SystemRecord) (value : SystemRecord) : List SystemRecord :=
  array.filter (fun element => element != value)

/-- The callback registered under `'global_systems'`, as a function from the
catalog before the event to the catalog after it.

```
if (['SYSTEM_CREATED', 'SYSTEM_REMOVED', 'SYSTEM_UPDATED'].includes(event.name)) {
  let existingSystem = SystemService.findSystemByID(event.payload.id);
  switch (event.name) {
    case 'SYSTEM_CREATED':
      if (!existingSystem) { $rootScope.systems.push(event.payload); }
      break;
    case 'SYSTEM_REMOVED':
      if (existingSystem) { _.pull($rootScope.systems, existingSystem); }
      break;
    case 'SYSTEM_UPDATED':
      if (existingSystem) {
        _.pull($rootScope.systems, existingSystem);
        $rootScope.systems.push(event.payload);
      }
      break;
  }
}
```
-/
def globalSystemsCallback (systems : List SystemRecord) (event : Event) :
    List SystemRecord :=
  if ["SYSTEM_CREATED", "SYSTEM_REMOVED", "SYSTEM_UPDATED"].contains event.name then
    let existingSystem := findSystemByID systems event.payload.id
    if event.name = "SYSTEM_CREATED" then
      match existingSystem with
      | none => systems ++ [event.payload]
      | some _ => systems
    else if event.name = "SYSTEM_REMOVED" then
      match existingSystem with
      | some existing => pull systems existing
      | none => systems
    else if event.name = "SYSTEM_UPDATED" then
      match existingSystem with
      | some existing => pull systems existing ++ [event.payload]
      | none => systems
    else systems
  else systems

/-- The event `SYSTEM_CREATED` carrying `payload`. -/
def systemCreated (payload : SystemRecord) : Event := ⟨"SYSTEM_CREATED", payload⟩

/-- The event `SYSTEM_REMOVED` carrying `payload`. -/
def systemRemoved (payload : SystemRecord) : Event := ⟨"SYSTEM_REMOVED", payload⟩

/-- The event `SYSTEM_UPDATED` carrying `payload`. -/
def systemUpdated (payload : SystemRecord) : Event := ⟨"SYSTEM_UPDATED", payload⟩

/-- No two records of the catalog share an id. -/
def uniqueIds (systems : List SystemRecord) : Prop :=
  (systems.map (fun system => system.id)).Nodup

instance (systems : List SystemRecord) : Decidable (uniqueIds systems) := by
  unfold uniqueIds; infer_instance

/-- The records of the catalog whose id is `id`. -/
def recordsWithId (systems : List SystemRecord) (id : String) : List SystemRecord :=
  systems.filter (fun system => system.id == id)

/-- The records of the catalog whose id is not `id`. -/
def recordsWithoutId (systems : List SystemRecord) (id : String) : List SystemRecord :=
  systems.filter (fun system => system.id != id)

/-- Deliver a sequence of events to the callback, one after the other. -/
def deliverAll (systems : List SystemRecord) (events : List Event) : List SystemRecord :=
  events.foldl globalSystemsCallback systems

/-- The object of identity `ref` with the given id and name and nothing else, for
concrete catalogs. -/
def exampleSystem (ref : Nat) (id name : String) : SystemRecord :=
  { ref := ref, id := id, name := name, version := "", description := "", instances := [],
    commands := [] }

/-! ## Auth reducer (`ui/src/reducers/auth.js`, known through its test) -/

/-- The user object carried by a login (`payload.data.user`) and stored as
`userData`: `{ username, roles, preferences: { theme } }`. The empty object
`{}` has no username, no roles and no theme. -/
structure UserData where
  username : Option String
  roles : List String
  theme : Option String
deriving DecidableEq, Repr

/-- The empty object `{}` as a value of `userData`. -/
def UserData.emptyObject : UserData := ⟨none, [], none⟩

/-- A value of the field `userError`: `null`, or an `Error` with its message. -/
inductive UserError where
  | null
  | error (message : String)
deriving DecidableEq, Repr

/-- The state of the auth reducer. The test passes partial objects such as `{}`
and `{ pwChangeRequired: true }` as the prior state, so every property may be
missing (`none`). -/
structure AuthState where
  userData : Option UserData
  isAuthenticated : Option Bool
  isAnonymous : Option Bool
  isProtected : Option Bool
  userLoading : Option Bool
  userError : Option UserError
  pwChangeRequired : Option Bool
deriving DecidableEq, Repr

/-- The object `{}` as a state: no property is present. -/
def AuthState.emptyObject : AuthState := ⟨none, none, none, none, none, none, none⟩

/-- The initial state of the reducer, the value of `authReducer(undefined, {})`
in the test (lines 5-15). -/
def initialState : AuthState :=
  { userData := some UserData.emptyObject
    isAuthenticated := some false
    isAnonymous := some false
    isProtected := some false
    userLoading := some false
    userError := some UserError.null
    pwChangeRequired := some false }

/-- The actions of `constants/ActionTypes` used by the test, with their payloads;
`other` is any action of another type (such as `{}`). -/
inductive AuthAction where
  | userLoginBegin
  | userLoginSuccess (user : UserData) (pwChangeRequired : Bool)
  | userLoginFailure (error : String)
  | userLogoutBegin
  | userLogoutFailure (error : String)
  | userLogoutSuccess
  | updateUserSuccess
  | other
deriving DecidableEq, Repr

/-- Whether a username is one of the protected accounts, `admin` or `anonymous`. -/
def isProtectedName (username : Option String) : Bool :=
  username == some "admin" || username == some "anonymous"

/-- Whether a username is the anonymous account. -/
def isAnonymousName (username : Option String) : Bool :=
  username == some "anonymous"

/-- Modelled from the spec: the reducer `authReducer` of `ui/src/reducers/auth.js`
is not among the sources, only its test `__tests__/auth.test.js` is. Each
transition follows section 4.1 of the spec and sets exactly the fields listed
there, every field not listed keeping its prior value:

* `beginLogin`: `userData = {}`, `userError = null`, `userLoading = true`;
* `loginSucceeded(payload)`: `userData = payload.user`, `isAuthenticated = true`,
  `userLoading = false`, `userError = null`,
  `pwChangeRequired = payload.pwChangeRequired`,
  `isProtected = username ∈ {admin, anonymous}`,
  `isAnonymous = username == anonymous`;
* `loginFailed(error)`: `userData = {}`, `isAuthenticated`, `isAnonymous`,
  `isProtected`, `userLoading` all `false`, `userError = error`;
* `beginLogout`: `userLoading = true` only;
* `logoutFailed(error)`: `userLoading = false`, `userError = error` only;
* `logoutSucceeded`: `userData = {}`, `isAuthenticated`, `isAnonymous`,
  `isProtected`, `userLoading` all `false`, `userError = null`;
* `userUpdated`: if `pwChangeRequired` was true it becomes `false`, otherwise
  the state is returned as it is.

The expected objects of the test agree with this field by field. The spec does
not say what becomes of a field that a transition does not list; the model
keeps it, as the object spread of a reducer does. For `loginFailed` and
`logoutSucceeded` the test fixes `pwChangeRequired` only from the prior state
`{}`, where the result has none. -/
def authReducer (state : AuthState) : AuthAction → AuthState
  | .userLoginBegin =>
    { state with
      userData := some UserData.emptyObject
      userLoading := some true
      userError := some UserError.null }
  | .userLoginSuccess user pwChangeRequired =>
    { state with
      userData := some user
      isAuthenticated := some true
      isAnonymous := some (isAnonymousName user.username)
      isProtected := some (isProtectedName user.username)
      userLoading := some false
      userError := some UserError.null
      pwChangeRequired := some pwChangeRequired }
  | .userLoginFailure error =>
    { state with
      userData := some UserData.emptyObject
      isAuthenticated := some false
      isAnonymous := some false
      isProtected := some false
      userLoading := some false
      userError := some (UserError.error error) }
  | .userLogoutBegin => { state with userLoading := some true }
  | .userLogoutFailure error =>
    { state with
      userLoading := some false
      userError := some (UserError.error error) }
  | .userLogoutSuccess =>
    { state with
      userData := some UserData.emptyObject
      isAuthenticated := some false
      isAnonymous := some false
      isProtected := some false
      userLoading := some false
      userError := some UserError.null }
  | .updateUserSuccess =>
    if state.pwChangeRequired = some true then { state with pwChangeRequired := some false }
    else state
  | .other => state

/-- The call `authReducer(undefined, action)`: the state defaults to the initial
state. -/
def authReducerDefault (action : AuthAction) : AuthState :=
  authReducer initialState action

/-! ## The test cases of `auth.test.js`, replayed on the model -/

/-- Test "should return the initial state" (lines 5-15). -/
theorem test_initial_state : authReducerDefault .other = initialState := rfl

/-- Test "should handle USER_LOGIN_BEGIN" (lines 17-42); the prior `userData` is
any old value. -/
theorem test_user_login_begin (oldData : UserData) :
    authReducer
      ⟨some oldData, some true, some false, some false, some false, some .null, some false⟩
      .userLoginBegin
    = ⟨some UserData.emptyObject, some true, some false, some false, some true, some .null,
        some false⟩ := rfl

/-- Test "should handle USER_LOGIN_SUCCESS" (lines 44-64). -/
theorem test_user_login_success :
    authReducer AuthState.emptyObject (.userLoginSuccess ⟨some "someUser", [], none⟩ false)
    = ⟨some ⟨some "someUser", [], none⟩, some true, some false, some false, some false,
        some .null, some false⟩ := by
  decide

/-- Test "should set isProtected for the admin user" (lines 66-76). -/
theorem test_admin_is_protected :
    (authReducer AuthState.emptyObject
        (.userLoginSuccess ⟨some "admin", [], none⟩ false)).isProtected = some true
    ∧ (authReducer AuthState.emptyObject
        (.userLoginSuccess ⟨some "admin", [], none⟩ false)).isAnonymous = some false := by
  decide

/-- Test "should set isProtected and isAnonymous for the anon user" (lines 78-88). -/
theorem test_anonymous_is_protected :
    (authReducer AuthState.emptyObject
        (.userLoginSuccess ⟨some "anonymous", [], none⟩ false)).isProtected = some true
    ∧ (authReducer AuthState.emptyObject
        (.userLoginSuccess ⟨some "anonymous", [], none⟩ false)).isAnonymous = some true := by
  decide

/-- Test "should handle USER_LOGIN_FAILURE" (lines 90-108): the expected object
has no `pwChangeRequired`. -/
theorem test_user_login_failure (message : String) :
    authReducer AuthState.emptyObject (.userLoginFailure message)
    = ⟨some UserData.emptyObject, some false, some false, some false, some false,
        some (.error message), none⟩ := rfl

/-- Test "should handle USER_LOGOUT_BEGIN" (lines 110-114). -/
theorem test_user_logout_begin :
    authReducer AuthState.emptyObject .userLogoutBegin
    = ⟨none, none, none, none, some true, none, none⟩ := rfl

/-- Test "should handle USER_LOGOUT_FAILURE" (lines 116-124). -/
theorem test_user_logout_failure (message : String) :
    authReducer AuthState.emptyObject (.userLogoutFailure message)
    = ⟨none, none, none, none, some false, some (.error message), none⟩ := rfl

/-- Test "should handle USER_LOGOUT_SUCCESS" (lines 126-135): the expected object
has no `pwChangeRequired`. -/
theorem test_user_logout_success :
    authReducer AuthState.emptyObject .userLogoutSuccess
    = ⟨some UserData.emptyObject, some false, some false, some false, some false,
        some .null, none⟩ := rfl

/-- Test "should toggle pwChangeRequired if set and UPDATE_USER_SUCCESS occurs"
(lines 137-144). -/
theorem test_update_user_success :
    (authReducer { AuthState.emptyObject with pwChangeRequired := some true }
        .updateUserSuccess).pwChangeRequired = some false := by
  decide

/-! ## The authorization check -/

/-- Membership in the result of the loop of `_.intersection`, started from any
accumulated `result`. -/
theorem mem_intersection_loop (other : List String) (array result : List String) (v : String) :
    v ∈ array.foldl
        (fun result value =>
          if !result.contains value && other.contains value then result ++ [value] else result)
        result
      ↔ v ∈ result ∨ (v ∈ array ∧ v ∈ other) := by
  induction array generalizing result with
  | nil => simp
  | cons x xs ih =>
    rw [List.foldl_cons, ih]
    by_cases hr : x ∈ result <;> by_cases ho : x ∈ other <;>
      simp only [List.contains, List.elem_eq_mem, hr, ho, decide_True, decide_False,
        Bool.not_true, Bool.not_false, Bool.false_and, Bool.true_and, Bool.and_false,
        Bool.false_eq_true, if_false, if_true, List.mem_append, List.mem_cons,
        List.not_mem_nil, or_false] <;>
      constructor
    · rintro (h | h)
      · exact Or.inl h
      · exact Or.inr ⟨Or.inr h.1, h.2⟩
    · rintro (h | ⟨h | h, hv⟩)
      · exact Or.inl h
      · exact Or.inl (h ▸ hr)
      · exact Or.inr ⟨h, hv⟩
    · rintro (h | h)
      · exact Or.inl h
      · exact Or.inr ⟨Or.inr h.1, h.2⟩
    · rintro (h | ⟨h | h, hv⟩)
      · exact Or.inl h
      · exact Or.inl (h ▸ hr)
      · exact Or.inr ⟨h, hv⟩
    · rintro ((h | h) | h)
      · exact Or.inl h
      · exact Or.inr ⟨Or.inl h, h ▸ ho⟩
      · exact Or.inr ⟨Or.inr h.1, h.2⟩
    · rintro (h | ⟨h | h, hv⟩)
      · exact Or.inl (Or.inl h)
      · exact Or.inl (Or.inr h)
      · exact Or.inr ⟨h, hv⟩
    · rintro (h | h)
      · exact Or.inl h
      · exact Or.inr ⟨Or.inr h.1, h.2⟩
    · rintro (h | ⟨h | h, hv⟩)
      · exact Or.inl h
      · exact absurd (h ▸ hv) ho
      · exact Or.inr ⟨h, hv⟩

/-- A value is in `_.intersection(array, other)` exactly when it is in both
arrays. -/
theorem mem_intersection (array other : List String) (v : String) :
    v ∈ intersection array other ↔ v ∈ array ∧ v ∈ other := by
  unfold intersection
  rw [mem_intersection_loop]
  simp

/-- The `length` of `_.intersection(array, other)` is truthy exactly when some
value of `other` is in `array`. -/
theorem intersection_length_truthy (array other : List String) :
    (JSValue.number (intersection array other).length).truthy = true
      ↔ ∃ p ∈ other, p ∈ array := by
  simp only [JSValue.truthy, bne_iff_ne, ne_eq, List.length_eq_zero]
  constructor
  · intro h
    obtain ⟨v, hv⟩ := List.exists_mem_of_ne_nil _ h
    rw [mem_intersection] at hv
    exact ⟨v, hv.2, hv.1⟩
  · rintro ⟨p, hp, hu⟩ hnil
    have : p ∈ intersection array other := (mem_intersection array other p).mpr ⟨hu, hp⟩
    rw [hnil] at this
    exact List.not_mem_nil p this

/-- Claim C1. With `config.authEnabled` true and a defined user whose permissions
do not contain `"bg-all"`: for a single required string, `hasPermission` returns
a truthy value if and only if that string is a member of `user.permissions`
(the string counts as the one-element list of itself); for an array of required
strings, it returns a truthy value if and only if at least one string of the
array is a member of `user.permissions`. -/
theorem hasPermission_truthy_iff_some_required_held (config : Config) (user : User)
    (hauth : config.authEnabled = some true) (hwild : "bg-all" ∉ user.permissions) :
    (∀ permission : String,
        (hasPermission config (some user) (.single permission)).truthy = true
          ↔ permission ∈ user.permissions)
    ∧ (∀ permission : String,
        hasPermission config (some user) (.single permission)
          = hasPermission config (some user) (.array [permission]))
    ∧ (∀ required : List String,
        (hasPermission config (some user) (.array required)).truthy = true
          ↔ ∃ p ∈ required, p ∈ user.permissions) := by
  have hinc : includes user.permissions "bg-all" = false := by
    simp [includes, hwild]
  have hval : ∀ permissions : PermissionsArg,
      hasPermission config (some user) permissions
        = .number (intersection user.permissions (castArray permissions)).length := by
    intro permissions
    simp only [hasPermission, hauth, bne_self_eq_false, Bool.false_eq_true, if_false, hinc]
  refine ⟨?_, ?_, ?_⟩
  · intro permission
    rw [hval, intersection_length_truthy]
    simp [castArray]
  · intro permission
    rw [hval, hval]
    rfl
  · intro required
    rw [hval, intersection_length_truthy]
    rfl

/-- Claim C1 with authorization enabled and a user holding `bg-read` and
`bg-write`: the single string `"bg-read"` is allowed, the single string
`"bg-admin"` is denied, the array of `bg-admin` and `bg-write` is allowed and
the empty array is denied. -/
theorem hasPermission_truthy_iff_some_required_held_witness :
    (Config.mk (some true)).authEnabled = some true
      ∧ "bg-all" ∉ (User.mk "bob" ["bg-read", "bg-write"]).permissions
      ∧ (hasPermission ⟨some true⟩ (some ⟨"bob", ["bg-read", "bg-write"]⟩)
          (.single "bg-read")).truthy = true
      ∧ ¬ (hasPermission ⟨some true⟩ (some ⟨"bob", ["bg-read", "bg-write"]⟩)
          (.single "bg-admin")).truthy = true
      ∧ (hasPermission ⟨some true⟩ (some ⟨"bob", ["bg-read", "bg-write"]⟩)
          (.array ["bg-admin", "bg-write"])).truthy = true
      ∧ ¬ (hasPermission ⟨some true⟩ (some ⟨"bob", ["bg-read", "bg-write"]⟩)
          (.array [])).truthy = true :=
  ⟨rfl, by decide,
    ((hasPermission_truthy_iff_some_required_held ⟨some true⟩
        ⟨"bob", ["bg-read", "bg-write"]⟩ rfl (by decide)).1 "bg-read").mpr (by decide),
    fun h => absurd
      (((hasPermission_truthy_iff_some_required_held ⟨some true⟩
        ⟨"bob", ["bg-read", "bg-write"]⟩ rfl (by decide)).1 "bg-admin").mp h) (by decide),
    ((hasPermission_truthy_iff_some_required_held ⟨some true⟩
        ⟨"bob", ["bg-read", "bg-write"]⟩ rfl (by decide)).2.2 ["bg-admin", "bg-write"]).mpr
      ⟨"bg-write", by decide, by decide⟩,
    fun h => absurd
      (((hasPermission_truthy_iff_some_required_held ⟨some true⟩
        ⟨"bob", ["bg-read", "bg-write"]⟩ rfl (by decide)).2.2 []).mp h) (by simp)⟩

/-- Claim C2. When `config.authEnabled` is false, `hasPermission` returns `true` for
every user, `undefined` and users without permissions included, and every
permissions argument. -/
theorem hasPermission_auth_disabled (user : Option User) (permissions : PermissionsArg) :
    hasPermission ⟨some false⟩ user permissions = .bool true := by
  simp [hasPermission]

/-- Claim C3. When `config.authEnabled` is true and the user is `undefined`,
`hasPermission` returns `false` for every permissions argument. -/
theorem hasPermission_undefined_user (permissions : PermissionsArg) :
    hasPermission ⟨some true⟩ none permissions = .bool false := by
  simp [hasPermission]

/-- Claim C4. For a defined user whose permissions contain `"bg-all"`,
`hasPermission` returns `true` for every permissions argument, whatever the
value of `config.authEnabled`. -/
theorem hasPermission_wildcard (config : Config) (user : User) (permissions : PermissionsArg)
    (hwild : "bg-all" ∈ user.permissions) :
    hasPermission config (some user) permissions = .bool true := by
  have hinc : includes user.permissions "bg-all" = true := by
    simp [includes, hwild]
  unfold hasPermission
  split
  · rfl
  · simp [hinc]

/-- Claim C4 at a user holding only `"bg-all"`, an empty array of required
permissions and authorization enabled. -/
theorem hasPermission_wildcard_witness :
    "bg-all" ∈ (User.mk "root" ["bg-all"]).permissions
      ∧ hasPermission ⟨some true⟩ (some ⟨"root", ["bg-all"]⟩) (.array []) = .bool true :=
  ⟨by decide, hasPermission_wildcard ⟨some true⟩ ⟨"root", ["bg-all"]⟩ (.array []) (by decide)⟩

/-! ## The system catalog -/

/-- The lookup finds nothing exactly when no record of the catalog has the id. -/
theorem findSystemByID_eq_none_iff (systems : List SystemRecord) (id : String) :
    findSystemByID systems id = none ↔ ∀ s ∈ systems, s.id ≠ id := by
  simp [findSystemByID, List.find?_eq_none]

/-- A record found by the lookup is in the catalog and has the id. -/
theorem findSystemByID_some (systems : List SystemRecord) (id : String) (existing : SystemRecord)
    (h : findSystemByID systems id = some existing) : existing ∈ systems ∧ existing.id = id := by
  unfold findSystemByID at h
  refine ⟨List.mem_of_find?_eq_some h, ?_⟩
  have := List.find?_some h
  simpa using this

/-- When some record of the catalog has the id, the lookup finds one. -/
theorem findSystemByID_of_mem (systems : List SystemRecord) (id : String)
    (h : ∃ s ∈ systems, s.id = id) : ∃ existing, findSystemByID systems id = some existing := by
  cases hf : findSystemByID systems id with
  | some existing => exact ⟨existing, rfl⟩
  | none =>
    obtain ⟨s, hs, hid⟩ := h
    exact absurd hid ((findSystemByID_eq_none_iff systems id).mp hf s hs)

/-- The callback on `SYSTEM_CREATED`. -/
theorem callback_created (systems : List SystemRecord) (payload : SystemRecord) :
    globalSystemsCallback systems (systemCreated payload)
      = match findSystemByID systems payload.id with
        | none => systems ++ [payload]
        | some _ => systems := by
  simp [globalSystemsCallback, systemCreated]

/-- The callback on `SYSTEM_REMOVED`. -/
theorem callback_removed (systems : List SystemRecord) (payload : SystemRecord) :
    globalSystemsCallback systems (systemRemoved payload)
      = match findSystemByID systems payload.id with
        | some existing => pull systems existing
        | none => systems := by
  simp [globalSystemsCallback, systemRemoved]

/-- The callback on `SYSTEM_UPDATED`. -/
theorem callback_updated (systems : List SystemRecord) (payload : SystemRecord) :
    globalSystemsCallback systems (systemUpdated payload)
      = match findSystemByID systems payload.id with
        | some existing => pull systems existing ++ [payload]
        | none => systems := by
  simp [globalSystemsCallback, systemUpdated]

/-- In a catalog with unique ids, pulling a record of the catalog removes exactly
the records with its id. -/
theorem pull_eq_recordsWithoutId (systems : List SystemRecord) (existing : SystemRecord)
    (huniq : uniqueIds systems) (hmem : existing ∈ systems) :
    pull systems existing = recordsWithoutId systems existing.id := by
  unfold pull recordsWithoutId
  apply List.filter_congr
  intro s hs
  by_cases h : s = existing
  · subst h; simp
  · have hid : s.id ≠ existing.id := fun hid =>
      h (List.inj_on_of_nodup_map huniq hs hmem hid)
    have h1 : (s != existing) = true := bne_iff_ne.mpr h
    have h2 : (s.id != existing.id) = true := bne_iff_ne.mpr hid
    rw [h1, h2]

/-- Removing records from a catalog keeps its ids unique. -/
theorem uniqueIds_filter (systems : List SystemRecord) (keep : SystemRecord → Bool)
    (huniq : uniqueIds systems) : uniqueIds (systems.filter keep) := by
  unfold uniqueIds at *
  exact huniq.sublist (List.Sublist.map _ (List.filter_sublist systems))

/-- Appending a record whose id is new keeps the ids of a catalog unique. -/
theorem uniqueIds_append (systems : List SystemRecord) (payload : SystemRecord)
    (huniq : uniqueIds systems) (hnew : ∀ s ∈ systems, s.id ≠ payload.id) :
    uniqueIds (systems ++ [payload]) := by
  unfold uniqueIds at *
  rw [List.map_append, List.nodup_append]
  refine ⟨huniq, List.nodup_singleton _, ?_⟩
  intro a ha hb
  simp only [List.map_cons, List.map_nil, List.mem_singleton] at hb
  obtain ⟨s, hs, rfl⟩ := List.mem_map.mp ha
  exact hnew s hs hb

/-- The callback keeps the ids of the catalog unique, whatever the event. -/
theorem uniqueIds_callback (systems : List SystemRecord) (event : Event)
    (huniq : uniqueIds systems) : uniqueIds (globalSystemsCallback systems event) := by
  unfold globalSystemsCallback
  split
  · simp only
    split
    · cases hf : findSystemByID systems event.payload.id with
      | none =>
        exact uniqueIds_append systems event.payload huniq
          ((findSystemByID_eq_none_iff _ _).mp hf)
      | some existing => exact huniq
    · split
      · cases hf : findSystemByID systems event.payload.id with
        | none => exact huniq
        | some existing => exact uniqueIds_filter systems _ huniq
      · split
        · cases hf : findSystemByID systems event.payload.id with
          | none => exact huniq
          | some existing =>
            obtain ⟨hmem, hid⟩ := findSystemByID_some _ _ _ hf
            refine uniqueIds_append _ event.payload (uniqueIds_filter systems _ huniq) ?_
            intro s hs
            rw [pull_eq_recordsWithoutId systems existing huniq hmem, hid] at hs
            simpa [recordsWithoutId] using (List.mem_filter.mp hs).2
        · exact huniq
  · exact huniq

/-- Claim C5. The callback is idempotent on `SYSTEM_CREATED`: for every catalog and
payload, delivering the event twice yields the same catalog as delivering it
once. The payload is appended only when no record with its id exists (the
catalog is returned as it is otherwise), so starting from a catalog without
that id the result has exactly one record with that id, the payload. A second
delivery that carries another object with the same id changes nothing either. -/
theorem systemCreated_idempotent (systems : List SystemRecord) (payload : SystemRecord) :
    globalSystemsCallback (globalSystemsCallback systems (systemCreated payload))
        (systemCreated payload)
      = globalSystemsCallback systems (systemCreated payload)
    ∧ ((∃ s ∈ systems, s.id = payload.id) →
        globalSystemsCallback systems (systemCreated payload) = systems)
    ∧ ((∀ s ∈ systems, s.id ≠ payload.id) →
        globalSystemsCallback systems (systemCreated payload) = systems ++ [payload]
        ∧ recordsWithId (globalSystemsCallback systems (systemCreated payload)) payload.id
            = [payload])
    ∧ (∀ again : SystemRecord, again.id = payload.id →
        globalSystemsCallback (globalSystemsCallback systems (systemCreated payload))
            (systemCreated again)
          = globalSystemsCallback systems (systemCreated payload)) := by
  have hsome : ∀ (catalog : List SystemRecord) (q : SystemRecord),
      (∃ s ∈ catalog, s.id = q.id) →
      globalSystemsCallback catalog (systemCreated q) = catalog := by
    intro catalog q h
    obtain ⟨existing, hf⟩ := findSystemByID_of_mem catalog q.id h
    rw [callback_created, hf]
  have hnone : (∀ s ∈ systems, s.id ≠ payload.id) →
      globalSystemsCallback systems (systemCreated payload) = systems ++ [payload] := by
    intro h
    rw [callback_created, (findSystemByID_eq_none_iff systems payload.id).mpr h]
  have hagain : ∀ again : SystemRecord, again.id = payload.id →
      globalSystemsCallback (globalSystemsCallback systems (systemCreated payload))
          (systemCreated again)
        = globalSystemsCallback systems (systemCreated payload) := by
    intro again hid
    apply hsome
    by_cases h : ∃ s ∈ systems, s.id = payload.id
    · rw [hsome systems payload h]
      obtain ⟨s, hs, hsid⟩ := h
      exact ⟨s, hs, hsid.trans hid.symm⟩
    · have h2 : ∀ s ∈ systems, s.id ≠ payload.id := fun s hs hsid => h ⟨s, hs, hsid⟩
      rw [hnone h2]
      exact ⟨payload, by simp, hid.symm⟩
  refine ⟨hagain payload rfl, hsome systems payload, ?_, hagain⟩
  intro h
  refine ⟨hnone h, ?_⟩
  rw [hnone h]
  unfold recordsWithId
  rw [List.filter_append]
  have hnil : systems.filter (fun system => system.id == payload.id) = [] := by
    rw [List.filter_eq_nil_iff]
    intro s hs
    simpa using h s hs
  rw [hnil]
  simp

/-- Claim C5 on two catalogs. The catalog with ids `"1"` and `"2"` already holds
the id `"1"`: the event leaves it as it is. The catalog with the id `"2"`
only does not: the first delivery appends the payload, the second delivery
changes nothing, and exactly one record with id `"1"` is there after both. -/
theorem systemCreated_idempotent_witness :
    (∃ s ∈ [exampleSystem 1 "1" "a", exampleSystem 2 "2" "b"],
        s.id = (exampleSystem 4 "1" "c").id)
      ∧ globalSystemsCallback [exampleSystem 1 "1" "a", exampleSystem 2 "2" "b"]
          (systemCreated (exampleSystem 4 "1" "c"))
        = [exampleSystem 1 "1" "a", exampleSystem 2 "2" "b"]
      ∧ (∀ s ∈ [exampleSystem 2 "2" "b"], s.id ≠ (exampleSystem 4 "1" "c").id)
      ∧ globalSystemsCallback [exampleSystem 2 "2" "b"]
          (systemCreated (exampleSystem 4 "1" "c"))
        = [exampleSystem 2 "2" "b", exampleSystem 4 "1" "c"]
      ∧ globalSystemsCallback
          (globalSystemsCallback [exampleSystem 2 "2" "b"]
            (systemCreated (exampleSystem 4 "1" "c")))
          (systemCreated (exampleSystem 4 "1" "c"))
        = [exampleSystem 2 "2" "b", exampleSystem 4 "1" "c"]
      ∧ recordsWithId
          (globalSystemsCallback
            (globalSystemsCallback [exampleSystem 2 "2" "b"]
              (systemCreated (exampleSystem 4 "1" "c")))
            (systemCreated (exampleSystem 4 "1" "c")))
          "1"
        = [exampleSystem 4 "1" "c"] :=
  ⟨⟨exampleSystem 1 "1" "a", by simp, rfl⟩,
    (systemCreated_idempotent [exampleSystem 1 "1" "a", exampleSystem 2 "2" "b"]
      (exampleSystem 4 "1" "c")).2.1 ⟨exampleSystem 1 "1" "a", by simp, rfl⟩,
    by decide,
    ((systemCreated_idempotent [exampleSystem 2 "2" "b"]
      (exampleSystem 4 "1" "c")).2.2.1 (by decide)).1,
    ((systemCreated_idempotent [exampleSystem 2 "2" "b"] (exampleSystem 4 "1" "c")).1).trans
      ((systemCreated_idempotent [exampleSystem 2 "2" "b"]
        (exampleSystem 4 "1" "c")).2.2.1 (by decide)).1,
    ((systemCreated_idempotent [exampleSystem 2 "2" "b"] (exampleSystem 4 "1" "c")).1).symm ▸
      ((systemCreated_idempotent [exampleSystem 2 "2" "b"]
        (exampleSystem 4 "1" "c")).2.2.1 (by decide)).2⟩

/-- Claim C6. On `SYSTEM_UPDATED` with payload `p`, for a catalog of the data model
(no two records share an id): if the catalog holds a record with id `p.id`,
that record is removed and `p` is appended, so the catalog afterwards holds `p`
as its only record with that id and every other record is unchanged. If no
record with id `p.id` exists, the catalog (any catalog) is left unchanged: the
update is dropped, not inserted. -/
theorem systemUpdated_replaces (systems : List SystemRecord) (p : SystemRecord) :
    (uniqueIds systems → (∃ s ∈ systems, s.id = p.id) →
        globalSystemsCallback systems (systemUpdated p) = recordsWithoutId systems p.id ++ [p]
        ∧ recordsWithId (globalSystemsCallback systems (systemUpdated p)) p.id = [p]
        ∧ recordsWithoutId (globalSystemsCallback systems (systemUpdated p)) p.id
            = recordsWithoutId systems p.id
        ∧ (∀ s, s ∈ globalSystemsCallback systems (systemUpdated p)
            ↔ s = p ∨ (s ∈ systems ∧ s.id ≠ p.id)))
    ∧ ((∀ s ∈ systems, s.id ≠ p.id) →
        globalSystemsCallback systems (systemUpdated p) = systems) := by
  refine ⟨?_, ?_⟩
  · intro huniq hex
    obtain ⟨existing, hf⟩ := findSystemByID_of_mem systems p.id hex
    obtain ⟨hmem, hid⟩ := findSystemByID_some _ _ _ hf
    have hres : globalSystemsCallback systems (systemUpdated p)
        = recordsWithoutId systems p.id ++ [p] := by
      rw [callback_updated, hf]
      simp only
      rw [pull_eq_recordsWithoutId systems existing huniq hmem, hid]
    refine ⟨hres, ?_, ?_, ?_⟩
    · rw [hres]
      unfold recordsWithId recordsWithoutId
      simp [List.filter_append, List.filter_filter]
    · rw [hres]
      unfold recordsWithoutId
      simp [List.filter_append, List.filter_filter]
    · intro s
      rw [hres]
      unfold recordsWithoutId
      simp only [List.mem_append, List.mem_filter, List.mem_singleton, bne_iff_ne, ne_eq]
      tauto
  · intro h
    rw [callback_updated, (findSystemByID_eq_none_iff systems p.id).mpr h]

/-- Claim C6 on a catalog with ids `"1"` and `"2"`: the update of `"1"` replaces the
record of id `"1"` by the payload and keeps the record of id `"2"`; the update
of the unknown id `"3"` is dropped. -/
theorem systemUpdated_replaces_witness :
    uniqueIds [exampleSystem 1 "1" "a", exampleSystem 2 "2" "b"]
      ∧ (∃ s ∈ [exampleSystem 1 "1" "a", exampleSystem 2 "2" "b"],
          s.id = (exampleSystem 4 "1" "c").id)
      ∧ globalSystemsCallback [exampleSystem 1 "1" "a", exampleSystem 2 "2" "b"]
          (systemUpdated (exampleSystem 4 "1" "c"))
        = [exampleSystem 2 "2" "b", exampleSystem 4 "1" "c"]
      ∧ (∀ s ∈ [exampleSystem 1 "1" "a", exampleSystem 2 "2" "b"],
          s.id ≠ (exampleSystem 5 "3" "d").id)
      ∧ globalSystemsCallback [exampleSystem 1 "1" "a", exampleSystem 2 "2" "b"]
          (systemUpdated (exampleSystem 5 "3" "d"))
        = [exampleSystem 1 "1" "a", exampleSystem 2 "2" "b"] :=
  ⟨by decide, ⟨exampleSystem 1 "1" "a", by simp, rfl⟩,
    ((systemUpdated_replaces [exampleSystem 1 "1" "a", exampleSystem 2 "2" "b"]
      (exampleSystem 4 "1" "c")).1 (by decide) ⟨exampleSystem 1 "1" "a", by simp, rfl⟩).1.trans
      (by decide),
    by decide,
    (systemUpdated_replaces [exampleSystem 1 "1" "a", exampleSystem 2 "2" "b"]
      (exampleSystem 5 "3" "d")).2 (by decide)⟩

/-- Pulling an object out of an array removes that object and nothing else: an
object of the same properties and another identity stays. -/
theorem pull_keeps_other_object_of_equal_contents :
    pull [exampleSystem 1 "1" "a", exampleSystem 2 "1" "a", exampleSystem 1 "1" "a"]
        (exampleSystem 1 "1" "a")
      = [exampleSystem 2 "1" "a"] := by
  decide

/-- Claim C7. On `SYSTEM_REMOVED` with payload `p`: if the catalog holds a record
with id `p.id`, one such record is removed (it is no longer in the catalog, and
every other object is in the catalog afterwards exactly when it was before, in
the same order); for a catalog with unique ids no record with id `p.id` remains
and all other records are kept; if no record with id `p.id` exists the catalog
is left unchanged. -/
theorem systemRemoved_removes (systems : List SystemRecord) (p : SystemRecord) :
    ((∃ s ∈ systems, s.id = p.id) →
        ∃ existing ∈ systems, existing.id = p.id
          ∧ existing ∉ globalSystemsCallback systems (systemRemoved p)
          ∧ (∀ s, s ≠ existing →
              (s ∈ globalSystemsCallback systems (systemRemoved p) ↔ s ∈ systems))
          ∧ (globalSystemsCallback systems (systemRemoved p)).Sublist systems)
    ∧ (uniqueIds systems →
        recordsWithId (globalSystemsCallback systems (systemRemoved p)) p.id = []
        ∧ globalSystemsCallback systems (systemRemoved p) = recordsWithoutId systems p.id)
    ∧ ((∀ s ∈ systems, s.id ≠ p.id) →
        globalSystemsCallback systems (systemRemoved p) = systems) := by
  have hnone : (∀ s ∈ systems, s.id ≠ p.id) →
      globalSystemsCallback systems (systemRemoved p) = systems := by
    intro h
    rw [callback_removed, (findSystemByID_eq_none_iff systems p.id).mpr h]
  refine ⟨?_, ?_, hnone⟩
  · intro hex
    obtain ⟨existing, hf⟩ := findSystemByID_of_mem systems p.id hex
    obtain ⟨hmem, hid⟩ := findSystemByID_some _ _ _ hf
    refine ⟨existing, hmem, hid, ?_, ?_, ?_⟩
    · rw [callback_removed, hf]
      simp [pull]
    · intro s hs
      rw [callback_removed, hf]
      simp [pull, hs]
    · rw [callback_removed, hf]
      exact List.filter_sublist systems
  · intro huniq
    have hres : globalSystemsCallback systems (systemRemoved p)
        = recordsWithoutId systems p.id := by
      by_cases hex : ∃ s ∈ systems, s.id = p.id
      · obtain ⟨existing, hf⟩ := findSystemByID_of_mem systems p.id hex
        obtain ⟨hmem, hid⟩ := findSystemByID_some _ _ _ hf
        rw [callback_removed, hf]
        simp only
        rw [pull_eq_recordsWithoutId systems existing huniq hmem, hid]
      · have h2 : ∀ s ∈ systems, s.id ≠ p.id := fun s hs hid => hex ⟨s, hs, hid⟩
        rw [hnone h2]
        unfold recordsWithoutId
        symm
        rw [List.filter_eq_self]
        intro s hs
        exact bne_iff_ne.mpr (h2 s hs)
    refine ⟨?_, hres⟩
    rw [hres]
    unfold recordsWithId recordsWithoutId
    simp [List.filter_filter]

/-- Claim C7 on a catalog with ids `"1"` and `"2"`: the removal of `"1"` leaves the
record of id `"2"` only, and the removal of the unknown id `"3"` leaves the
catalog as it is. -/
theorem systemRemoved_removes_witness :
    uniqueIds [exampleSystem 1 "1" "a", exampleSystem 2 "2" "b"]
      ∧ globalSystemsCallback [exampleSystem 1 "1" "a", exampleSystem 2 "2" "b"]
          (systemRemoved (exampleSystem 4 "1" "c"))
        = [exampleSystem 2 "2" "b"]
      ∧ recordsWithId
          (globalSystemsCallback [exampleSystem 1 "1" "a", exampleSystem 2 "2" "b"]
            (systemRemoved (exampleSystem 4 "1" "c")))
          (exampleSystem 4 "1" "c").id
        = []
      ∧ (∀ s ∈ [exampleSystem 1 "1" "a", exampleSystem 2 "2" "b"],
          s.id ≠ (exampleSystem 5 "3" "d").id)
      ∧ globalSystemsCallback [exampleSystem 1 "1" "a", exampleSystem 2 "2" "b"]
          (systemRemoved (exampleSystem 5 "3" "d"))
        = [exampleSystem 1 "1" "a", exampleSystem 2 "2" "b"] :=
  ⟨by decide,
    ((systemRemoved_removes [exampleSystem 1 "1" "a", exampleSystem 2 "2" "b"]
      (exampleSystem 4 "1" "c")).2.1 (by decide)).2.trans (by decide),
    ((systemRemoved_removes [exampleSystem 1 "1" "a", exampleSystem 2 "2" "b"]
      (exampleSystem 4 "1" "c")).2.1 (by decide)).1,
    by decide,
    (systemRemoved_removes [exampleSystem 1 "1" "a", exampleSystem 2 "2" "b"]
      (exampleSystem 5 "3" "d")).2.2 (by decide)⟩

/-- Delivering any sequence of events keeps the ids of the catalog unique. -/
theorem uniqueIds_deliverAll (events : List Event) (systems : List SystemRecord)
    (huniq : uniqueIds systems) : uniqueIds (deliverAll systems events) := by
  induction events generalizing systems with
  | nil => exact huniq
  | cons event rest ih =>
    exact ih (globalSystemsCallback systems event) (uniqueIds_callback systems event huniq)

/-- Claim C8. Uniqueness on id is an invariant of the catalog: if no two records
share an id, then after the callback handles any event (of any name, with any
payload) no two records share an id, and so it is after every finite sequence
of events. -/
theorem uniqueIds_invariant (systems : List SystemRecord) (huniq : uniqueIds systems) :
    (∀ event : Event, uniqueIds (globalSystemsCallback systems event))
    ∧ (∀ events : List Event, uniqueIds (deliverAll systems events)) :=
  ⟨fun event => uniqueIds_callback systems event huniq,
    fun events => uniqueIds_deliverAll events systems huniq⟩

/-- Claim C8 on a catalog with the single id `"1"`. -/
theorem uniqueIds_invariant_witness :
    uniqueIds [exampleSystem 1 "1" "a"]
      ∧ (∀ event : Event, uniqueIds (globalSystemsCallback [exampleSystem 1 "1" "a"] event))
      ∧ (∀ events : List Event, uniqueIds (deliverAll [exampleSystem 1 "1" "a"] events)) :=
  ⟨by decide, uniqueIds_invariant [exampleSystem 1 "1" "a"] (by decide)⟩

/-! ## The auth reducer -/

/-- Claim C9. For every prior state and every `USER_LOGIN_SUCCESS` action carrying
user `u`, the resulting state has `isAuthenticated = true`, `userError = null`,
`isProtected = true` exactly when `u.username` is `"admin"` or `"anonymous"`
(and `false` otherwise), and `isAnonymous = true` exactly when `u.username` is
`"anonymous"` (and `false` otherwise). -/
theorem loginSuccess_flags (state : AuthState) (u : UserData) (pwChangeRequired : Bool) :
    (authReducer state (.userLoginSuccess u pwChangeRequired)).isAuthenticated = some true
    ∧ (authReducer state (.userLoginSuccess u pwChangeRequired)).userError = some .null
    ∧ ((authReducer state (.userLoginSuccess u pwChangeRequired)).isProtected = some true
        ↔ u.username = some "admin" ∨ u.username = some "anonymous")
    ∧ ((authReducer state (.userLoginSuccess u pwChangeRequired)).isProtected = some false
        ↔ ¬ (u.username = some "admin" ∨ u.username = some "anonymous"))
    ∧ ((authReducer state (.userLoginSuccess u pwChangeRequired)).isAnonymous = some true
        ↔ u.username = some "anonymous")
    ∧ ((authReducer state (.userLoginSuccess u pwChangeRequired)).isAnonymous = some false
        ↔ u.username ≠ some "anonymous") := by
  simp [authReducer, isProtectedName, isAnonymousName]

/-- A state after a login that requires a password change. -/
theorem loggedIn_pwChangeRequired :
    authReducer initialState (.userLoginSuccess ⟨some "alice", [], none⟩ true)
      = ⟨some ⟨some "alice", [], none⟩, some true, some false, some false, some false,
          some .null, some true⟩ := by
  decide

/-- Claim C10, as stated, fails on the prior state `{}` of the test (lines
126-135): after `USER_LOGOUT_SUCCESS` the state has no `pwChangeRequired`, so
that flag is undefined and not `false`. -/
theorem logoutSuccess_pwChangeRequired_counterexample :
    (authReducer AuthState.emptyObject .userLogoutSuccess).pwChangeRequired = none
    ∧ (authReducer AuthState.emptyObject .userLogoutSuccess).pwChangeRequired ≠ some false := by
  decide

/-- Claim C10, amended. For every prior state, `USER_LOGOUT_SUCCESS` yields a state
with `userData = {}`, the boolean flags `isAuthenticated`, `isAnonymous`,
`isProtected` and `userLoading` false and `userError = null`, regardless of the
prior state. -/
theorem logoutSuccess_resets (state : AuthState) :
    (authReducer state .userLogoutSuccess).userData = some UserData.emptyObject
    ∧ (authReducer state .userLogoutSuccess).isAuthenticated = some false
    ∧ (authReducer state .userLogoutSuccess).isAnonymous = some false
    ∧ (authReducer state .userLogoutSuccess).isProtected = some false
    ∧ (authReducer state .userLogoutSuccess).userLoading = some false
    ∧ (authReducer state .userLogoutSuccess).userError = some UserError.null :=
  ⟨rfl, rfl, rfl, rfl, rfl, rfl⟩

/-- Claim C11. For every state, `UPDATE_USER_SUCCESS` yields
`pwChangeRequired = false` when the prior `pwChangeRequired` was true and
changes no other field; when the prior `pwChangeRequired` was false (or the
property was missing) the state is returned unchanged. -/
theorem updateUserSuccess_toggles_pwChangeRequired (state : AuthState) :
    (state.pwChangeRequired = some true →
        (authReducer state .updateUserSuccess).pwChangeRequired = some false
        ∧ (authReducer state .updateUserSuccess).userData = state.userData
        ∧ (authReducer state .updateUserSuccess).isAuthenticated = state.isAuthenticated
        ∧ (authReducer state .updateUserSuccess).isAnonymous = state.isAnonymous
        ∧ (authReducer state .updateUserSuccess).isProtected = state.isProtected
        ∧ (authReducer state .updateUserSuccess).userLoading = state.userLoading
        ∧ (authReducer state .updateUserSuccess).userError = state.userError)
    ∧ (state.pwChangeRequired = some false → authReducer state .updateUserSuccess = state)
    ∧ (state.pwChangeRequired = none → authReducer state .updateUserSuccess = state) := by
  refine ⟨?_, ?_, ?_⟩
  · intro h
    simp [authReducer, h]
  · intro h
    simp [authReducer, h]
  · intro h
    simp [authReducer, h]

/-- Claim C11 on the state reached by a login that requires a password change,
and on the initial state, where `pwChangeRequired` is false. -/
theorem updateUserSuccess_toggles_pwChangeRequired_witness :
    (authReducer initialState
        (.userLoginSuccess ⟨some "alice", [], none⟩ true)).pwChangeRequired = some true
      ∧ (authReducer
          (authReducer initialState (.userLoginSuccess ⟨some "alice", [], none⟩ true))
          .updateUserSuccess).pwChangeRequired = some false
      ∧ initialState.pwChangeRequired = some false
      ∧ authReducer initialState .updateUserSuccess = initialState :=
  ⟨by decide,
    ((updateUserSuccess_toggles_pwChangeRequired
      (authReducer initialState (.userLoginSuccess ⟨some "alice", [], none⟩ true))).1
        (by decide)).1,
    rfl,
    (updateUserSuccess_toggles_pwChangeRequired initialState).2.1 rfl⟩

/-! ## The type of the value returned by the authorization check -/

/-- Claim C12, as stated, fails: with authorization enabled, a user holding
`bg-read` and the required permission `"bg-read"` get the number `1`, and the
required permission `"bg-write"` gets the number `0`; neither is `true` or
`false`. -/
theorem hasPermission_returns_number_counterexample :
    hasPermission ⟨some true⟩ (some ⟨"bob", ["bg-read"]⟩) (.single "bg-read") = .number 1
    ∧ hasPermission ⟨some true⟩ (some ⟨"bob", ["bg-read"]⟩) (.single "bg-write") = .number 0
    ∧ ¬ (∃ b : Bool,
          hasPermission ⟨some true⟩ (some ⟨"bob", ["bg-read"]⟩) (.single "bg-read") = .bool b) := by
  refine ⟨by decide, by decide, ?_⟩
  rintro ⟨b, hb⟩
  have h1 : hasPermission ⟨some true⟩ (some ⟨"bob", ["bg-read"]⟩) (.single "bg-read")
      = .number 1 := by decide
  rw [h1] at hb
  exact JSValue.noConfusion hb

/-- The loop of `_.intersection` never pushes a value twice. -/
theorem nodup_intersection_loop (other : List String) (array result : List String)
    (hres : result.Nodup) :
    (array.foldl
        (fun result value =>
          if !result.contains value && other.contains value then result ++ [value] else result)
        result).Nodup := by
  induction array generalizing result with
  | nil => exact hres
  | cons x xs ih =>
    rw [List.foldl_cons]
    apply ih
    by_cases hx : (!result.contains x && other.contains x) = true
    · rw [if_pos hx]
      have hnot : x ∉ result := by
        intro hmem
        simp [List.contains, hmem] at hx
      rw [List.nodup_append]
      refine ⟨hres, List.nodup_singleton x, ?_⟩
      intro a ha hb
      rw [List.mem_singleton] at hb
      exact hnot (hb ▸ ha)
    · rw [if_neg hx]
      exact hres

/-- The length of `_.intersection(array, other)` is the number of distinct values
that are in both arrays. -/
theorem intersection_length_eq_card (array other : List String) :
    (intersection array other).length = (array.toFinset ∩ other.toFinset).card := by
  have hnodup : (intersection array other).Nodup :=
    nodup_intersection_loop other array [] List.nodup_nil
  rw [← List.toFinset_card_of_nodup hnodup]
  congr 1
  ext v
  simp [mem_intersection]

/-- Claim C12, amended. `hasPermission` returns a boolean when authorization is not
enabled (`true`), when the user is `undefined` (`false`) and when the user's
permissions contain `"bg-all"` (`true`). For a defined user without `"bg-all"`
under enabled authorization it returns a number: for a single required string,
`1` when the user holds it and `0` when not; for an array of required strings,
the number of distinct permissions that the user holds and the array contains,
which is `0` when the user holds none of them. -/
theorem hasPermission_returns_boolean_or_count (config : Config) (user : Option User) :
    (config.authEnabled ≠ some true →
        ∀ permissions, hasPermission config user permissions = .bool true)
    ∧ (config.authEnabled = some true → user = none →
        ∀ permissions, hasPermission config user permissions = .bool false)
    ∧ (∀ u : User, config.authEnabled = some true → user = some u →
        "bg-all" ∈ u.permissions →
        ∀ permissions, hasPermission config user permissions = .bool true)
    ∧ (∀ u : User, config.authEnabled = some true → user = some u →
        "bg-all" ∉ u.permissions →
        (∀ permission : String,
            hasPermission config user (.single permission)
              = .number (if permission ∈ u.permissions then 1 else 0))
        ∧ (∀ required : List String,
            hasPermission config user (.array required)
              = .number (u.permissions.toFinset ∩ required.toFinset).card)
        ∧ (∀ required : List String, (∀ p ∈ required, p ∉ u.permissions) →
            hasPermission config user (.array required) = .number 0)) := by
  refine ⟨?_, ?_, ?_, ?_⟩
  · intro h permissions
    simp [hasPermission, h]
  · intro h hu permissions
    simp [hasPermission, h, hu]
  · intro u h hu hw permissions
    simp [hasPermission, h, hu, includes, hw]
  · intro u h hu hw
    have hval : ∀ permissions : PermissionsArg,
        hasPermission config user permissions
          = .number (intersection u.permissions (castArray permissions)).length := by
      intro permissions
      simp [hasPermission, h, hu, includes, hw]
    have harr : ∀ required : List String,
        hasPermission config user (.array required)
          = .number (u.permissions.toFinset ∩ required.toFinset).card := by
      intro required
      rw [hval, intersection_length_eq_card]
      rfl
    refine ⟨?_, harr, ?_⟩
    · intro permission
      rw [hval, intersection_length_eq_card]
      by_cases hp : permission ∈ u.permissions
      · simp [castArray, hp]
      · simp [castArray, hp]
    · intro required hnone
      rw [harr]
      congr 1
      rw [Finset.card_eq_zero, Finset.eq_empty_iff_forall_not_mem]
      intro v hv
      rw [Finset.mem_inter, List.mem_toFinset, List.mem_toFinset] at hv
      exact hnone v hv.2 hv.1

/-- Claim C12, amended, on a user whose permissions are `bg-read` (twice) and
`bg-write`, under enabled authorization: the single string `"bg-write"` gives
`1`, the single string `"bg-admin"` gives `0`, the array of `bg-read` (twice)
and `bg-admin` gives `1`, and the array of `bg-admin` alone gives `0`. -/
theorem hasPermission_returns_boolean_or_count_witness :
    (Config.mk (some true)).authEnabled = some true
      ∧ "bg-all" ∉ (User.mk "bob" ["bg-read", "bg-read", "bg-write"]).permissions
      ∧ hasPermission ⟨some true⟩ (some ⟨"bob", ["bg-read", "bg-read", "bg-write"]⟩)
          (.single "bg-write") = .number 1
      ∧ hasPermission ⟨some true⟩ (some ⟨"bob", ["bg-read", "bg-read", "bg-write"]⟩)
          (.single "bg-admin") = .number 0
      ∧ hasPermission ⟨some true⟩ (some ⟨"bob", ["bg-read", "bg-read", "bg-write"]⟩)
          (.array ["bg-read", "bg-read", "bg-admin"]) = .number 1
      ∧ hasPermission ⟨some true⟩ (some ⟨"bob", ["bg-read", "bg-read", "bg-write"]⟩)
          (.array ["bg-admin"]) = .number 0 :=
  ⟨rfl, by decide,
    (((hasPermission_returns_boolean_or_count ⟨some true⟩
        (some ⟨"bob", ["bg-read", "bg-read", "bg-write"]⟩)).2.2.2
        ⟨"bob", ["bg-read", "bg-read", "bg-write"]⟩ rfl rfl (by decide)).1 "bg-write").trans
      (by decide),
    (((hasPermission_returns_boolean_or_count ⟨some true⟩
        (some ⟨"bob", ["bg-read", "bg-read", "bg-write"]⟩)).2.2.2
        ⟨"bob", ["bg-read", "bg-read", "bg-write"]⟩ rfl rfl (by decide)).1 "bg-admin").trans
      (by decide),
    (((hasPermission_returns_boolean_or_count ⟨some true⟩
        (some ⟨"bob", ["bg-read", "bg-read", "bg-write"]⟩)).2.2.2
        ⟨"bob", ["bg-read", "bg-read", "bg-write"]⟩ rfl rfl (by decide)).2.1
        ["bg-read", "bg-read", "bg-admin"]).trans (by decide),
    ((hasPermission_returns_boolean_or_count ⟨some true⟩
        (some ⟨"bob", ["bg-read", "bg-read", "bg-write"]⟩)).2.2.2
        ⟨"bob", ["bg-read", "bg-read", "bg-write"]⟩ rfl rfl (by decide)).2.2
        ["bg-admin"] (by decide)⟩

end BeerGarden
